import Mathlib

/-!
Verification of the resume-parser pipeline (src/app of vipulswarup/resume-parser).

The development shallowly embeds the code that the claims are about:

* `app/parser_llm.py` — `_clean_json`, the tenacity retry wrapper around
  `_call_groq` / `_call_openai`, and the provider-fallback loop `parse_with_llm`;
* `app/save_to_db.py` — `save_parsed_candidate`;
* `app/background_tasks.py` — `process_resume_background` and the
  thread-per-submission dispatcher `start_background_processing`.

External collaborators (the Groq/OpenAI HTTP calls, text extraction, the SQL
engine) are modelled as oracles or as explicit state, exactly at the boundary
where the Python code observes them.
-/

namespace ResumeParser

/-- JSON values as Python sees them after `json.loads`: `null` doubles as the
Python `None`, objects keep their insertion order of fields. -/
inductive JVal where
  | null
  | bool (b : Bool)
  | num (q : Rat)
  | str (s : String)
  | arr (elems : List JVal)
  | obj (fields : List (String × JVal))

mutual

/-- Structural equality test on JSON values. -/
def JVal.beq : JVal → JVal → Bool
  | .null, .null => true
  | .bool a, .bool b => a == b
  | .num a, .num b => a == b
  | .str a, .str b => a == b
  | .arr xs, .arr ys => JVal.beqList xs ys
  | .obj xs, .obj ys => JVal.beqObj xs ys
  | _, _ => false

/-- Elementwise equality test on JSON arrays. -/
def JVal.beqList : List JVal → List JVal → Bool
  | [], [] => true
  | x :: xs, y :: ys => JVal.beq x y && JVal.beqList xs ys
  | _, _ => false

/-- Fieldwise equality test on JSON object field lists. -/
def JVal.beqObj : List (String × JVal) → List (String × JVal) → Bool
  | [], [] => true
  | (k1, v1) :: xs, (k2, v2) :: ys => k1 == k2 && JVal.beq v1 v2 && JVal.beqObj xs ys
  | _, _ => false

end

instance : BEq JVal := ⟨JVal.beq⟩

/-- Looks a key up in a JSON object; `none` when the value is not an object or
the key is absent (Python `dict.get` returning the default). -/
def jget (v : JVal) (k : String) : Option JVal :=
  match v with
  | .obj fs => fs.lookup k
  | _ => none

/-- Python `dict.get(k, dflt)` on a value already known to be a dict. -/
def jgetD (v : JVal) (k : String) (dflt : JVal) : JVal :=
  (jget v k).getD dflt

/-- Python attribute-style `.get(k, dflt)`: raises `AttributeError` when the
receiver is not a dict. -/
def pyGet (v : JVal) (k : String) (dflt : JVal) : Except String JVal :=
  match v with
  | .obj fs => .ok ((fs.lookup k).getD dflt)
  | _ => .error "AttributeError: get"

/-- Python truthiness of a JSON value (`None`, `False`, `0`, `""`, `[]`, `{}`
are falsy). -/
def truthy : JVal → Bool
  | .null => false
  | .bool b => b
  | .num q => decide (q ≠ 0)
  | .str s => !(s == "")
  | .arr xs => !xs.isEmpty
  | .obj fs => !fs.isEmpty

/-- Python `a or b`. -/
def pyOr (a b : JVal) : JVal := if truthy a then a else b

/-- Replaces (or inserts) a key in a JSON object field list, as Python dict
item assignment does: an existing key keeps its position, a new key is
appended. -/
def jset (fs : List (String × JVal)) (k : String) (v : JVal) : List (String × JVal) :=
  if fs.any (fun kv => kv.1 == k) then
    fs.map (fun kv => if kv.1 == k then (k, v) else kv)
  else fs ++ [(k, v)]

/-- Substring test on strings, used to model Python `in` on a string. -/
def substrIn (k s : String) : Bool :=
  (List.range (s.toList.length + 1)).any
    (fun i => (s.toList.drop i).take k.toList.length == k.toList)

/-- Python `k in v` for the receivers the pipeline can meet: key membership for
dicts, element membership for lists, substring test for strings, `TypeError`
otherwise. -/
def pyContains (k : String) : JVal → Except String Bool
  | .obj fs => .ok (fs.any (fun kv => kv.1 == k))
  | .arr xs => .ok (xs.any (fun x => x == .str k))
  | .str s => .ok (substrIn k s)
  | _ => .error "TypeError: argument is not iterable"

/-- Python iteration over a value (`for x in v`): lists yield elements, strings
yield one-character strings, dicts yield their keys, anything else raises. -/
def pyIter : JVal → Except String (List JVal)
  | .arr xs => .ok xs
  | .str s => .ok (s.toList.map (fun c => .str (String.mk [c])))
  | .obj fs => .ok (fs.map (fun kv => .str kv.1))
  | _ => .error "TypeError: object is not iterable"

/-! ## A model of `json.loads`

The pipeline feeds provider response bodies to Python `json.loads`
(`parser_llm.py` lines 107 and 124).  The parser below accepts the JSON
grammar over objects, arrays, strings (with simple escapes), integer and
decimal numbers, `true`, `false` and `null`; exponent notation and `\u`
escapes are not modelled (no claim depends on them).  `none` models
`json.JSONDecodeError`. -/

/-- Whitespace characters JSON allows between tokens. -/
def isJsonWs (c : Char) : Bool := c == ' ' || c == '\t' || c == '\n' || c == '\r'

/-- Skips JSON whitespace. -/
def skipWs (cs : List Char) : List Char := cs.dropWhile isJsonWs

/-- Reads the body of a JSON string after the opening quote, handling the
common escapes; returns the decoded characters and the rest of the input. -/
def parseStrChars : Nat → List Char → Option (List Char × List Char)
  | 0, _ => none
  | _, [] => none
  | fuel + 1, c :: rest =>
    if c == '"' then some ([], rest)
    else if c == '\\' then
      match rest with
      | [] => none
      | e :: rest2 =>
        let decoded := if e == 'n' then '\n' else if e == 't' then '\t'
                       else if e == 'r' then '\r' else e
        match parseStrChars fuel rest2 with
        | some (acc, rem) => some (decoded :: acc, rem)
        | none => none
    else
      match parseStrChars fuel rest with
      | some (acc, rem) => some (c :: acc, rem)
      | none => none

/-- Decimal digits to a natural number. -/
def digitsToNat (cs : List Char) : Nat := cs.foldl (fun a c => a * 10 + (c.toNat - 48)) 0

/-- Reads a JSON number (optional minus, digits, optional fraction). -/
def parseNumber (cs : List Char) : Option (Rat × List Char) :=
  let (neg, cs1) :=
    match cs with
    | '-' :: rest => (true, rest)
    | _ => (false, cs)
  let ip := cs1.takeWhile Char.isDigit
  let cs2 := cs1.dropWhile Char.isDigit
  if ip.isEmpty then none
  else
    match cs2 with
    | '.' :: rest =>
      let fp := rest.takeWhile Char.isDigit
      if fp.isEmpty then none
      else
        let rest2 := rest.dropWhile Char.isDigit
        let base : Rat := (digitsToNat ip : Rat) + (digitsToNat fp : Rat) / ((10 : Rat) ^ fp.length)
        some (if neg then -base else base, rest2)
    | _ =>
      let n : Rat := (digitsToNat ip : Rat)
      some (if neg then -n else n, cs2)

/-- Checks that the input starts with the given characters and drops them. -/
def expectChars (pat : List Char) (cs : List Char) : Option (List Char) :=
  if cs.take pat.length == pat then some (cs.drop pat.length) else none

mutual

/-- Reads one JSON value. -/
def parseVal : Nat → List Char → Option (JVal × List Char)
  | 0, _ => none
  | fuel + 1, cs =>
    match skipWs cs with
    | [] => none
    | c :: rest =>
      if c == '"' then
        match parseStrChars (rest.length + 1) rest with
        | some (acc, rem) => some (.str (String.mk acc), rem)
        | none => none
      else if c == '\x7b' then
        match skipWs rest with
        | '\x7d' :: rem => some (.obj [], rem)
        | cs2 =>
          match parseObjItems fuel cs2 with
          | some (fs, rem) => some (.obj fs, rem)
          | none => none
      else if c == '[' then
        match skipWs rest with
        | ']' :: rem => some (.arr [], rem)
        | cs2 =>
          match parseArrItems fuel cs2 with
          | some (vs, rem) => some (.arr vs, rem)
          | none => none
      else if c == 't' then
        match expectChars ['r', 'u', 'e'] rest with
        | some rem => some (.bool true, rem)
        | none => none
      else if c == 'f' then
        match expectChars ['a', 'l', 's', 'e'] rest with
        | some rem => some (.bool false, rem)
        | none => none
      else if c == 'n' then
        match expectChars ['u', 'l', 'l'] rest with
        | some rem => some (.null, rem)
        | none => none
      else
        match parseNumber (c :: rest) with
        | some (q, rem) => some (.num q, rem)
        | none => none

/-- Reads the comma-separated items of a non-empty JSON array up to the
closing bracket. -/
def parseArrItems : Nat → List Char → Option (List JVal × List Char)
  | 0, _ => none
  | fuel + 1, cs =>
    match parseVal fuel cs with
    | none => none
    | some (v, rem) =>
      match skipWs rem with
      | ',' :: rem2 =>
        match parseArrItems fuel rem2 with
        | some (vs, rem3) => some (v :: vs, rem3)
        | none => none
      | ']' :: rem2 => some ([v], rem2)
      | _ => none

/-- Reads the comma-separated members of a non-empty JSON object up to the
closing brace. -/
def parseObjItems : Nat → List Char → Option (List (String × JVal) × List Char)
  | 0, _ => none
  | fuel + 1, cs =>
    match skipWs cs with
    | '"' :: rest =>
      match parseStrChars (rest.length + 1) rest with
      | none => none
      | some (kcs, rem) =>
        match skipWs rem with
        | ':' :: rem2 =>
          match parseVal fuel rem2 with
          | none => none
          | some (v, rem3) =>
            match skipWs rem3 with
            | ',' :: rem4 =>
              match parseObjItems fuel rem4 with
              | some (fs, rem5) => some ((String.mk kcs, v) :: fs, rem5)
              | none => none
            | '\x7d' :: rem4 => some ([(String.mk kcs, v)], rem4)
            | _ => none
        | _ => none
    | _ => none

end

/-- Model of Python `json.loads`: parses one JSON document with nothing but
whitespace after it. -/
def jsonParse (s : String) : Option JVal :=
  match parseVal (s.toList.length + 1) s.toList with
  | some (v, rem) => if (skipWs rem).isEmpty then some v else none
  | none => none

/-! ## `parser_llm.py` -/

/-- Strips characters from both ends of a string, as Python `str.strip("x")`
does for a one-character set. -/
def stripCharBoth (c : Char) (s : String) : String :=
  String.mk (((s.toList.dropWhile (· == c)).reverse.dropWhile (· == c)).reverse)

/-- Drops the first `n` characters of a string (Python slicing `s[n:]`). -/
def dropStr (s : String) (n : Nat) : String := String.mk (s.toList.drop n)

/-- Python `str.strip()`: removes whitespace from both ends. -/
def strTrim (s : String) : String :=
  String.mk (((s.toList.dropWhile Char.isWhitespace).reverse.dropWhile
    Char.isWhitespace).reverse)

/-- Python `str.startswith(pat)`. -/
def strStartsWith (s pat : String) : Bool :=
  s.toList.take pat.toList.length == pat.toList

/-- Python `str.lower()`. -/
def strToLower (s : String) : String := String.mk (s.toList.map Char.toLower)

/-- Embedding of `_clean_json` (parser_llm.py lines 89-96): trims the raw body,
strips a markdown code fence, and drops a leading `json` language tag. -/
def clean_json (raw : String) : String :=
  let content := strTrim raw
  if strStartsWith content "```" then
    let content := stripCharBoth '\x60' content
    if strStartsWith (strToLower content) "json" then strTrim (dropStr content 4)
    else content
  else content

/-- Outcome of one underlying chat-completions API call, as the retry wrapper
observes it: either a response body (the message content) or a raised
exception (timeout, rate limit, 5xx, auth failure, network error). -/
inductive CallOutcome where
  | ok (body : String)
  | exn (msg : String)

/-- Model tag written by `_call_groq` for the 8B model. -/
def groq8bTag : String := "Groq:llama-3.1-8b-instant"

/-- Model tag written by `_call_groq` for the 70B model. -/
def groq70bTag : String := "Groq:llama-3.1-70b-versatile"

/-- Model tag written by `_call_openai`. -/
def openaiTag : String := "OpenAI:gpt-4o-mini"

/-- One execution of the body of `_call_groq` / `_call_openai` (parser_llm.py
lines 100-109 and 113-126): on a returned body, clean it, `json.loads` it and
tag the resulting dict with the model identifier.  A decode failure or a
non-dict result raises, which the surrounding tenacity wrapper sees as a
failed attempt exactly like a raised API call. -/
def callAttempt (tag : String) (out : CallOutcome) : Except String JVal :=
  match out with
  | .exn m => .error m
  | .ok body =>
    match jsonParse (clean_json body) with
    | none => .error "json.JSONDecodeError"
    | some v =>
      match v with
      | .obj fs => .ok (.obj (jset fs "_model_used" (.str tag)))
      | _ => .error "TypeError: item assignment on non-dict"

/-- Seconds slept by tenacity `wait_exponential(min=1, max=10)` (multiplier 1,
base 2) after the `n`-th failed attempt, `n` counted from 1: the exponential
`2 ^ (n - 1)` clamped to the configured floor of 1 s and cap of 10 s. -/
def tenacityWait (n : Nat) : Nat := max 1 (min (2 ^ (n - 1)) 10)

/-- Loop of the tenacity `@retry(wait=wait_exponential(min=1, max=10),
stop=stop_after_attempt(3))` decorator: `made` attempts already made,
`remaining` attempts still allowed.  Returns the result, the total number of
attempts made, and the seconds slept between attempts. -/
def retryGo (f : Nat → Except String JVal) : Nat → Nat → Except String JVal × Nat × List Nat
  | made, 0 => (.error "stop_after_attempt exhausted", made, [])
  | made, remaining + 1 =>
    match f made with
    | .ok v => (.ok v, made + 1, [])
    | .error e =>
      if remaining == 0 then (.error e, made + 1, [])
      else
        let rest := retryGo f (made + 1) remaining
        (rest.1, rest.2.1, tenacityWait (made + 1) :: rest.2.2)

/-- A decorated call: up to 3 attempts of `f`, with exponential backoff
between them; after the third failure the last exception propagates. -/
def retryCall (f : Nat → Except String JVal) : Except String JVal × Nat × List Nat :=
  retryGo f 0 3

/-- What one provider stage of `parse_with_llm` did: which model was called,
how many attempts the retry wrapper made against it, and the backoff sleeps. -/
structure StageTrace where
  model : String
  attempts : Nat
  waits : List Nat
deriving DecidableEq

/-- Which provider clients are configured (parser_llm.py lines 16-53):
`groq` is `groq_client is not None`, `openai` is
`get_openai_client() is not None`. -/
structure Providers where
  groq : Bool
  openai : Bool

/-- Oracle for the outside world: the outcome of the `i`-th underlying API
call of each provider stage. -/
structure Behavior where
  groq8b : Nat → CallOutcome
  groq70b : Nat → CallOutcome
  openaiCalls : Nat → CallOutcome

/-- The dict `{"error": msg}` that `parse_with_llm` returns on failure. -/
def errObj (msg : String) : JVal := .obj [("error", .str msg)]

/-- Result of `parse_with_llm` together with the trace of provider stages it
went through, in order. -/
structure ParseRun where
  result : JVal
  stages : List StageTrace

/-- The tenacity-wrapped `_call_groq(prompt, "llama-3.1-8b-instant")` call. -/
def stage8b (beh : Behavior) : Except String JVal × Nat × List Nat :=
  retryCall (fun i => callAttempt groq8bTag (beh.groq8b i))

/-- The tenacity-wrapped `_call_groq(prompt, "llama-3.1-70b-versatile")` call. -/
def stage70b (beh : Behavior) : Except String JVal × Nat × List Nat :=
  retryCall (fun i => callAttempt groq70bTag (beh.groq70b i))

/-- The tenacity-wrapped `_call_openai(prompt)` call. -/
def stageOpenai (beh : Behavior) : Except String JVal × Nat × List Nat :=
  retryCall (fun i => callAttempt openaiTag (beh.openaiCalls i))

/-- The OpenAI tail of `parse_with_llm` (parser_llm.py lines 154-160): try
OpenAI if configured, otherwise (or on failure) return the final error dict. -/
def parseTailOpenai (p : Providers) (beh : Behavior) (ts : List StageTrace) : ParseRun :=
  if p.openai then
    match stageOpenai beh with
    | (.ok v, n3, w3) => { result := v, stages := ts ++ [⟨openaiTag, n3, w3⟩] }
    | (.error _, n3, w3) =>
      { result := errObj "Parsing failed with Groq and OpenAI"
        stages := ts ++ [⟨openaiTag, n3, w3⟩] }
  else { result := errObj "Parsing failed with Groq and OpenAI", stages := ts }

/-- Embedding of `parse_with_llm` (parser_llm.py lines 129-160): if no client
is configured return the `"No LLM clients available"` dict; otherwise try
Groq `llama-3.1-8b-instant`, then Groq `llama-3.1-70b-versatile`, then
OpenAI, each under the tenacity retry wrapper, returning the first success or
the `"Parsing failed with Groq and OpenAI"` dict. -/
def parse_with_llm (p : Providers) (beh : Behavior) : ParseRun :=
  if !p.groq && !p.openai then
    { result := errObj "No LLM clients available - check API keys", stages := [] }
  else if p.groq then
    match stage8b beh with
    | (.ok v, n1, w1) => { result := v, stages := [⟨groq8bTag, n1, w1⟩] }
    | (.error _, n1, w1) =>
      match stage70b beh with
      | (.ok v, n2, w2) =>
        { result := v, stages := [⟨groq8bTag, n1, w1⟩, ⟨groq70bTag, n2, w2⟩] }
      | (.error _, n2, w2) =>
        parseTailOpenai p beh [⟨groq8bTag, n1, w1⟩, ⟨groq70bTag, n2, w2⟩]
  else parseTailOpenai p beh []

/-- Helper: when every one of the three allowed attempts fails, the retry
wrapper makes exactly 3 attempts, sleeps `tenacityWait 1` and `tenacityWait 2`
seconds between them, and propagates an error. -/
theorem retryCall_all_fail (f : Nat → Except String JVal)
    (h : ∀ i, i < 3 → ∃ m, f i = .error m) :
    ∃ e, retryCall f = (.error e, 3, [tenacityWait 1, tenacityWait 2]) := by
  obtain ⟨m0, h0⟩ := h 0 (by norm_num)
  obtain ⟨m1, h1⟩ := h 1 (by norm_num)
  obtain ⟨m2, h2⟩ := h 2 (by norm_num)
  exact ⟨m2, by simp [retryCall, retryGo, h0, h1, h2]⟩

/-- Helper: the backoff floor and cap configured in `wait_exponential(min=1,
max=10)`: every sleep lasts between 1 and 10 seconds. -/
theorem tenacityWait_bounds (n : Nat) : 1 ≤ tenacityWait n ∧ tenacityWait n ≤ 10 := by
  constructor
  · exact Nat.le_max_left _ _
  · exact Nat.max_le.mpr ⟨by norm_num, Nat.min_le_right _ _⟩

/-- C1: when the first provider in priority order (Groq llama-3.1-8b-instant)
raises on every attempt, `parse_with_llm` makes exactly 3 attempts against it,
with the tenacity exponential backoff sleeping 1 s then 2 s (every sleep
clamped to the configured window of 1 s to 10 s), and then falls through to
the next provider, Groq llama-3.1-70b-versatile. -/
theorem c1_retry_ceiling_then_fallback (p : Providers) (beh : Behavior)
    (hg : p.groq = true)
    (hfail : ∀ i, i < 3 → ∃ m, beh.groq8b i = CallOutcome.exn m) :
    (parse_with_llm p beh).stages.head? =
      some ⟨groq8bTag, 3, [tenacityWait 1, tenacityWait 2]⟩ ∧
    tenacityWait 1 = 1 ∧ tenacityWait 2 = 2 ∧
    (∀ n, 1 ≤ tenacityWait n ∧ tenacityWait n ≤ 10) ∧
    ((parse_with_llm p beh).stages[1]?).map StageTrace.model = some groq70bTag := by
  have hf : ∀ i, i < 3 → ∃ m, callAttempt groq8bTag (beh.groq8b i) = .error m := by
    intro i hi
    obtain ⟨m, hm⟩ := hfail i hi
    exact ⟨m, by simp [callAttempt, hm]⟩
  obtain ⟨e, hre⟩ := retryCall_all_fail _ hf
  have hs1 : stage8b beh = (.error e, 3, [tenacityWait 1, tenacityWait 2]) := hre
  have hmain : (parse_with_llm p beh).stages.head? =
      some ⟨groq8bTag, 3, [tenacityWait 1, tenacityWait 2]⟩ ∧
      ((parse_with_llm p beh).stages[1]?).map StageTrace.model = some groq70bTag := by
    rcases hr2 : stage70b beh with ⟨r2, n2, w2⟩
    rcases hr3 : stageOpenai beh with ⟨r3, n3, w3⟩
    cases r2 <;> cases r3 <;>
      cases hpo : p.openai <;>
        simp [parse_with_llm, hg, hs1, hr2, hr3, parseTailOpenai, hpo]
  exact ⟨hmain.1, rfl, rfl, tenacityWait_bounds, hmain.2⟩

/-- Witness for C1 at a concrete behavior: a Groq 8B stage that times out on
every call. -/
def behAllExn : Behavior :=
  ⟨fun _ => .exn "timeout", fun _ => .exn "timeout", fun _ => .exn "timeout"⟩

/-- C1 witness: the concrete always-timing-out first provider is attempted
exactly 3 times with sleeps of 1 s and 2 s, then Groq 70B is tried. -/
theorem c1_retry_ceiling_then_fallback_witness :
    (parse_with_llm ⟨true, false⟩ behAllExn).stages.head? =
      some ⟨groq8bTag, 3, [tenacityWait 1, tenacityWait 2]⟩ ∧
    tenacityWait 1 = 1 ∧ tenacityWait 2 = 2 ∧
    (∀ n, 1 ≤ tenacityWait n ∧ tenacityWait n ≤ 10) ∧
    ((parse_with_llm ⟨true, false⟩ behAllExn).stages[1]?).map StageTrace.model =
      some groq70bTag :=
  c1_retry_ceiling_then_fallback ⟨true, false⟩ behAllExn rfl
    (fun _ _ => ⟨"timeout", rfl⟩)

/-- Behavior whose every call returns a body that is not valid JSON — a
permanent (non-transient) provider failure in the sense of the spec. -/
def behBadJson : Behavior :=
  ⟨fun _ => .ok "not json", fun _ => .ok "not json", fun _ => .ok "not json"⟩

/-- C2 counterexample: a provider that returns a permanently malformed
response body (a non-JSON payload, unchanged by code-fence stripping) is
abandoned only after 3 attempts, not after exactly one — the tenacity
decorator retries every exception, with no transient/permanent distinction. -/
theorem c2_counterexample_permanent_failure_is_retried :
    ((parse_with_llm ⟨true, false⟩ behBadJson).stages.head?).map StageTrace.attempts =
      some 3 ∧
    ((parse_with_llm ⟨true, false⟩ behBadJson).stages.head?).map StageTrace.attempts ≠
      some 1 := by
  constructor
  · rfl
  · intro h
    rw [show ((parse_with_llm ⟨true, false⟩ behBadJson).stages.head?).map StageTrace.attempts =
        some 3 from rfl] at h
    simp at h

/-- C2 amended: a permanent (non-transient) provider failure — such as a
response body that fails to parse as JSON after code-fence stripping — is
treated exactly like a transient one: `parse_with_llm` retries it under the
same 3-attempt tenacity budget and advances to the next provider only after
all 3 attempts fail. -/
theorem c2_amended_permanent_failure_gets_three_attempts (p : Providers) (beh : Behavior)
    (hg : p.groq = true)
    (hfail : ∀ i, i < 3 → ∃ body, beh.groq8b i = CallOutcome.ok body ∧
      jsonParse (clean_json body) = none) :
    ((parse_with_llm p beh).stages.head?).map StageTrace.attempts = some 3 ∧
    ((parse_with_llm p beh).stages[1]?).map StageTrace.model = some groq70bTag := by
  have hf : ∀ i, i < 3 → ∃ m, callAttempt groq8bTag (beh.groq8b i) = .error m := by
    intro i hi
    obtain ⟨body, hb, hj⟩ := hfail i hi
    exact ⟨"json.JSONDecodeError", by simp [callAttempt, hb, hj]⟩
  obtain ⟨e, hre⟩ := retryCall_all_fail _ hf
  have hs1 : stage8b beh = (.error e, 3, [tenacityWait 1, tenacityWait 2]) := hre
  rcases hr2 : stage70b beh with ⟨r2, n2, w2⟩
  rcases hr3 : stageOpenai beh with ⟨r3, n3, w3⟩
  cases r2 <;> cases r3 <;>
    cases hpo : p.openai <;>
      simp [parse_with_llm, hg, hs1, hr2, hr3, parseTailOpenai, hpo]

/-- C2 amended witness: the concrete always-malformed-body provider is
attempted 3 times, then Groq 70B is tried. -/
theorem c2_amended_witness :
    ((parse_with_llm ⟨true, false⟩ behBadJson).stages.head?).map StageTrace.attempts =
      some 3 ∧
    ((parse_with_llm ⟨true, false⟩ behBadJson).stages[1]?).map StageTrace.model =
      some groq70bTag :=
  c2_amended_permanent_failure_gets_three_attempts ⟨true, false⟩ behBadJson rfl
    (fun _ _ => ⟨"not json", rfl, rfl⟩)

/-- C6: when at least one provider is configured and every configured
provider fails on all of its attempts, `parse_with_llm` returns the
`{"error": "Parsing failed with Groq and OpenAI"}` dict; when no provider is
configured it returns the `{"error": "No LLM clients available - check API
keys"}` dict; and the two error values are distinct. -/
theorem c6_error_values :
    (∀ p beh, p.groq = true ∨ p.openai = true →
      (p.groq = true →
        (∀ i, i < 3 → ∃ m, callAttempt groq8bTag (beh.groq8b i) = .error m) ∧
        (∀ i, i < 3 → ∃ m, callAttempt groq70bTag (beh.groq70b i) = .error m)) →
      (p.openai = true →
        ∀ i, i < 3 → ∃ m, callAttempt openaiTag (beh.openaiCalls i) = .error m) →
      (parse_with_llm p beh).result = errObj "Parsing failed with Groq and OpenAI") ∧
    (∀ beh, (parse_with_llm ⟨false, false⟩ beh).result =
      errObj "No LLM clients available - check API keys") ∧
    errObj "Parsing failed with Groq and OpenAI" ≠
      errObj "No LLM clients available - check API keys" := by
  refine ⟨?_, fun beh => rfl, by simp [errObj]⟩
  intro p beh hor hgq hoa
  cases hpg : p.groq with
  | false =>
    have hpo : p.openai = true := by
      rcases hor with h | h
      · exact absurd h (by simp [hpg])
      · exact h
    obtain ⟨e3, hr3⟩ := retryCall_all_fail _ (hoa hpo)
    have hs3 : stageOpenai beh = (.error e3, 3, [tenacityWait 1, tenacityWait 2]) := hr3
    simp [parse_with_llm, hpg, hpo, parseTailOpenai, hs3]
  | true =>
    obtain ⟨h8, h70⟩ := hgq hpg
    obtain ⟨e1, hr1⟩ := retryCall_all_fail _ h8
    obtain ⟨e2, hr2⟩ := retryCall_all_fail _ h70
    have hs1 : stage8b beh = (.error e1, 3, [tenacityWait 1, tenacityWait 2]) := hr1
    have hs2 : stage70b beh = (.error e2, 3, [tenacityWait 1, tenacityWait 2]) := hr2
    cases hpo : p.openai with
    | false => simp [parse_with_llm, hpg, hs1, hs2, parseTailOpenai, hpo]
    | true =>
      obtain ⟨e3, hr3⟩ := retryCall_all_fail _ (hoa hpo)
      have hs3 : stageOpenai beh = (.error e3, 3, [tenacityWait 1, tenacityWait 2]) := hr3
      simp [parse_with_llm, hpg, hs1, hs2, parseTailOpenai, hpo, hs3]

/-- C6 witness: with both providers configured and failing every call, the
result is the all-providers-failed dict; with none configured, the
no-provider dict; and they differ. -/
theorem c6_error_values_witness :
    (parse_with_llm ⟨true, true⟩ behAllExn).result =
      errObj "Parsing failed with Groq and OpenAI" ∧
    (parse_with_llm ⟨false, false⟩ behAllExn).result =
      errObj "No LLM clients available - check API keys" ∧
    errObj "Parsing failed with Groq and OpenAI" ≠
      errObj "No LLM clients available - check API keys" :=
  ⟨c6_error_values.1 ⟨true, true⟩ behAllExn (Or.inl rfl)
      (fun _ => ⟨fun _ _ => ⟨"timeout", rfl⟩, fun _ _ => ⟨"timeout", rfl⟩⟩)
      (fun _ => fun _ _ => ⟨"timeout", rfl⟩),
    c6_error_values.2.1 behAllExn,
    c6_error_values.2.2⟩

/-! ## `save_to_db.py`

Python numeric conversions are modelled on the JSON values the pipeline can
see.  `float(x)` accepts numbers, booleans and plain decimal strings
(exponents, `inf` and `nan` are not modelled — no claim touches them) and
raises on everything else; `int(x)` truncates numbers toward zero and accepts
integer strings only. -/

/-- Decimal-string fragment accepted by the model of Python `float`. -/
def parsePyFloat (s : String) : Option Rat :=
  let cs := (strTrim s).toList
  let signed : Rat × List Char :=
    match cs with
    | '-' :: r => (-1, r)
    | '+' :: r => (1, r)
    | _ => (1, cs)
  let sign := signed.1
  let cs1 := signed.2
  let ip := cs1.takeWhile Char.isDigit
  let cs2 := cs1.dropWhile Char.isDigit
  match cs2 with
  | [] => if ip.isEmpty then none else some (sign * (digitsToNat ip : Rat))
  | '.' :: r =>
    let fp := r.takeWhile Char.isDigit
    let cs3 := r.dropWhile Char.isDigit
    if !cs3.isEmpty then none
    else if ip.isEmpty && fp.isEmpty then none
    else some (sign * ((digitsToNat ip : Rat) + (digitsToNat fp : Rat) / (10 : Rat) ^ fp.length))
  | _ => none

/-- Model of Python `float()` on JSON values. -/
def pyFloat : JVal → Except String Rat
  | .num q => .ok q
  | .bool b => .ok (if b then 1 else 0)
  | .str s =>
    match parsePyFloat s with
    | some q => .ok q
    | none => .error ("could not convert string to float: " ++ s)
  | .null => .error "float() argument must be a string or a real number, not NoneType"
  | .arr _ => .error "float() argument must be a string or a real number, not list"
  | .obj _ => .error "float() argument must be a string or a real number, not dict"

/-- Integer-string fragment accepted by the model of Python `int`. -/
def parsePyIntStr (s : String) : Option Int :=
  let cs := (strTrim s).toList
  let signed : Int × List Char :=
    match cs with
    | '-' :: r => (-1, r)
    | '+' :: r => (1, r)
    | _ => (1, cs)
  if cs.isEmpty then none
  else if signed.2.isEmpty || !(signed.2.all Char.isDigit) then none
  else some (signed.1 * (digitsToNat signed.2 : Int))

/-- Truncation of a rational toward zero, as Python `int(float)` does. -/
def ratTrunc (q : Rat) : Int := q.num.tdiv (q.den : Int)

/-- Model of Python `int()` on JSON values. -/
def pyInt : JVal → Except String Int
  | .num q => .ok (ratTrunc q)
  | .bool b => .ok (if b then 1 else 0)
  | .str s =>
    match parsePyIntStr s with
    | some n => .ok n
    | none => .error ("invalid literal for int() with base 10: " ++ s)
  | .null => .error "int() argument must be a string or a number, not NoneType"
  | .arr _ => .error "int() argument must be a string or a number, not list"
  | .obj _ => .error "int() argument must be a string or a number, not dict"

/-- Row of `candidates` as `save_parsed_candidate` creates it (save_to_db.py
lines 15-25); only the columns the function sets are modelled, `id` is the
primary key handed out at flush. -/
structure Candidate where
  id : Nat
  full_name : JVal
  current_location : JVal
  linkedin_url : JVal
  current_salary : JVal
  expected_salary : JVal
  notice_period : JVal
  total_experience_years : Rat
  raw_json : JVal

/-- Data of one `candidate_education` row (save_to_db.py lines 39-47). -/
structure EduData where
  degree : JVal
  institution : JVal
  major : JVal
  graduation_year : Option Int
  certifications : JVal

/-- Data of one `candidate_experience` row (save_to_db.py lines 50-61);
`start_date` and `end_date` are always written as NULL by the source. -/
structure ExpData where
  job_title : JVal
  organization : JVal
  location : JVal
  reporting_to : JVal
  roles_responsibilities : JVal
  achievements : JVal

/-- Row of `resumes`.  `models.Resume` has no `processing_status` column: the
`resume.processing_status` writes in background_tasks.py land on the
in-memory mapped object only.  The field here models that attribute as the
worker session sees it, which is the only place the pipeline's status lives. -/
structure Resume where
  id : Nat
  candidate_id : Option Nat
  source_filename : String
  file_url : String
  parsed_confidence : JVal
  parsed_model : JVal
  processing_status : String

/-- The store visible to one worker session: every table
`save_parsed_candidate` and `process_resume_background` touch, plus the id
counters the flushes draw from. -/
structure DB where
  resumes : List Resume
  candidates : List Candidate
  candidate_emails : List (Nat × JVal)
  candidate_phones : List (Nat × JVal)
  candidate_education : List (Nat × EduData)
  candidate_experience : List (Nat × ExpData)
  master_skills : List (Nat × JVal)
  candidate_skills : List (Nat × Nat)
  candidate_languages : List (Nat × JVal)
  nextCandidateId : Nat
  nextSkillId : Nat

/-- `db.query(models.Resume).filter_by(id=rid).first()`. -/
def DB.getResume (db : DB) (rid : Nat) : Option Resume :=
  db.resumes.find? (fun r => r.id == rid)

/-- Updates the resume row with the given id in place. -/
def DB.setResume (db : DB) (rid : Nat) (f : Resume → Resume) : DB :=
  { db with resumes := db.resumes.map (fun r => if r.id == rid then f r else r) }

/-- `resume.processing_status = s` on the fetched row. -/
def DB.setStatus (db : DB) (rid : Nat) (s : String) : DB :=
  db.setResume rid (fun r => { r with processing_status := s })

/-- The all-fields update of the success path of `process_resume_background`
(background_tasks.py lines 54-59). -/
def DB.completeResume (db : DB) (rid cid : Nat) (conf mu : JVal) : DB :=
  db.setResume rid (fun r =>
    { r with candidate_id := some cid, parsed_confidence := conf,
             parsed_model := mu, processing_status := "completed" })

/-- The values the `Candidate(...)` constructor call reads out of the payload
(save_to_db.py lines 15-25), in keyword order. -/
structure CandData where
  full_name : JVal
  current_location : JVal
  linkedin_url : JVal
  current_salary : JVal
  expected_salary : JVal
  notice_period : JVal
  total_experience_years : Rat
  raw_json : JVal

/-- The values the child-table loops and the final link step read out of the
payload (save_to_db.py lines 31-82), in source order. -/
structure ChildData where
  emails : List JVal
  phones : List JVal
  edus : List EduData
  exps : List ExpData
  skills : List JVal
  langs : List JVal
  model_used : JVal

/-- The per-entry reads of the education loop (save_to_db.py lines 39-47),
including the `int(... or 0) if ... else None` conversion of
`graduation_year`. -/
def computeEduRows : List JVal → Except String (List EduData)
  | [] => .ok []
  | edu :: rest =>
    (pyGet edu "degree" .null).bind fun degree =>
    (pyGet edu "institution" .null).bind fun institution =>
    (pyGet edu "major" .null).bind fun major =>
    (pyGet edu "graduation_year" .null).bind fun gyRaw =>
    (if truthy gyRaw then (pyInt (pyOr gyRaw (.num 0))).map some else .ok none).bind fun gy =>
    (pyGet edu "certifications" .null).bind fun certs =>
    (computeEduRows rest).bind fun rows =>
    .ok (⟨degree, institution, major, gy, certs⟩ :: rows)

/-- The per-entry reads of the experience loop (save_to_db.py lines 50-61). -/
def computeExpRows : List JVal → Except String (List ExpData)
  | [] => .ok []
  | exp :: rest =>
    (pyGet exp "job_title" .null).bind fun job_title =>
    (pyGet exp "organization" .null).bind fun organization =>
    (pyGet exp "location" .null).bind fun location =>
    (pyGet exp "reporting_to" .null).bind fun reporting_to =>
    (pyGet exp "roles_responsibilities" .null).bind fun roles =>
    (pyGet exp "achievements" .null).bind fun achievements =>
    (computeExpRows rest).bind fun rows =>
    .ok (⟨job_title, organization, location, reporting_to, roles, achievements⟩ :: rows)

/-- The payload reads and conversions of the `Candidate(...)` constructor
call (save_to_db.py lines 15-25), in source order; the first failure is the
exception the caller sees.  These all run before any database operation. -/
def computeCandidateData (parsed : JVal) : Except String CandData :=
  (pyGet parsed "full_name" .null).bind fun full_name =>
  (pyGet parsed "location" .null).bind fun current_location =>
  (pyGet parsed "linkedin_url" .null).bind fun linkedin_url =>
  (pyGet parsed "current_salary" .null).bind fun current_salary =>
  (pyGet parsed "expected_salary" .null).bind fun expected_salary =>
  (pyGet parsed "notice_period" .null).bind fun notice_period =>
  (pyGet parsed "total_experience_years" .null).bind fun teyRaw =>
  (pyFloat (pyOr teyRaw (.num 0))).bind fun tey =>
  .ok ⟨full_name, current_location, linkedin_url, current_salary, expected_salary,
    notice_period, tey, parsed⟩

/-- The payload reads of the child-table loops and the link step
(save_to_db.py lines 31-82), in source order.  These run after the
`db.flush()` of line 28. -/
def computeChildData (parsed : JVal) : Except String ChildData :=
  (pyGet parsed "emails" (.arr [])).bind fun emailsV =>
  (pyIter emailsV).bind fun emails =>
  (pyGet parsed "phones" (.arr [])).bind fun phonesV =>
  (pyIter phonesV).bind fun phones =>
  (pyGet parsed "education" (.arr [])).bind fun eduV =>
  (pyIter eduV).bind fun eduItems =>
  (computeEduRows eduItems).bind fun edus =>
  (pyGet parsed "experience" (.arr [])).bind fun expV =>
  (pyIter expV).bind fun expItems =>
  (computeExpRows expItems).bind fun exps =>
  (pyGet parsed "skills" (.arr [])).bind fun skillsV =>
  (pyIter skillsV).bind fun skills =>
  (pyGet parsed "languages" (.arr [])).bind fun langsV =>
  (pyIter langsV).bind fun langs =>
  (pyGet parsed "_model_used" .null).bind fun model_used =>
  .ok ⟨emails, phones, edus, exps, skills, langs, model_used⟩

/-- The `db.flush()` of save_to_db.py line 28: the INSERT of the candidate
row is executed here, and the database enforces the NOT NULL constraint on
`candidates.full_name` (models.py line 11).  A violation raises
IntegrityError and leaves the session in pending-rollback state. -/
def flushCandidate (full_name : JVal) : Except String Unit :=
  match full_name with
  | .null => .error "IntegrityError: null value in column full_name violates not-null constraint"
  | _ => .ok ()

/-- The candidate row built at save_to_db.py lines 15-25. -/
def mkCandidate (c : CandData) (cid : Nat) : Candidate :=
  ⟨cid, c.full_name, c.current_location, c.linkedin_url, c.current_salary,
    c.expected_salary, c.notice_period, c.total_experience_years, c.raw_json⟩

/-- The skills loop (save_to_db.py lines 64-71): find or create the
`MasterSkill` with this name, then link the candidate to it. -/
def applySkills (cid : Nat) : List JVal → DB → DB
  | [], db => db
  | s :: rest, db =>
    match db.master_skills.find? (fun p => p.2 == s) with
    | some p =>
      applySkills cid rest
        { db with candidate_skills := db.candidate_skills ++ [(cid, p.1)] }
    | none =>
      applySkills cid rest
        { db with master_skills := db.master_skills ++ [(db.nextSkillId, s)],
                  candidate_skills := db.candidate_skills ++ [(cid, db.nextSkillId)],
                  nextSkillId := db.nextSkillId + 1 }

/-- The child-table inserts of `save_parsed_candidate` (save_to_db.py lines
30-75): emails, phones, education, experience, skills and languages rows for
the freshly flushed candidate. -/
def applyChildren (ch : ChildData) (cid : Nat) (db : DB) : DB :=
  let db2 := { db with candidate_emails :=
    db.candidate_emails ++ ch.emails.map (fun e => (cid, e)) }
  let db3 := { db2 with candidate_phones :=
    db2.candidate_phones ++ ch.phones.map (fun ph => (cid, ph)) }
  let db4 := { db3 with candidate_education :=
    db3.candidate_education ++ ch.edus.map (fun e => (cid, e)) }
  let db5 := { db4 with candidate_experience :=
    db4.candidate_experience ++ ch.exps.map (fun e => (cid, e)) }
  let db6 := applySkills cid ch.skills db5
  { db6 with candidate_languages :=
    db6.candidate_languages ++ ch.langs.map (fun l => (cid, l)) }

/-- Step 8 of `save_parsed_candidate` (save_to_db.py lines 78-82): if the
resume row exists, link it to the candidate and stamp the placeholder
confidence 90 and the payload's `_model_used` value. -/
def linkResume (ch : ChildData) (cid rid : Nat) (db : DB) : DB :=
  if (db.getResume rid).isSome then
    db.setResume rid (fun r =>
      { r with candidate_id := some cid, parsed_confidence := .num 90,
               parsed_model := ch.model_used })
  else db

/-- The state change of a successful `save_parsed_candidate` call: insert the
candidate and its child rows, then link the resume to the candidate
(save_to_db.py lines 27-100).  Returns the new candidate id. -/
def applySave (c : CandData) (ch : ChildData) (rid : Nat) (db : DB) : DB × Nat :=
  (linkResume ch db.nextCandidateId rid
    (applyChildren ch db.nextCandidateId
      { db with candidates := db.candidates ++ [mkCandidate c db.nextCandidateId],
                nextCandidateId := db.nextCandidateId + 1 }),
   db.nextCandidateId)

/-- An exception inside the `try:` block of the orchestrator, tagged by
where it came from: `pyExc` is ordinary Python code raising (conversions,
attribute errors, the extraction or parser call) with the SQLAlchemy session
still usable; `dbExc` is a failed `db.flush()` / `db.commit()`, which rolls
the transaction back and leaves the session in pending-rollback state, so
the next session operation raises PendingRollbackError. -/
inductive BodyErr where
  | pyExc (msg : String)
  | dbExc (msg : String)

/-- Tags a Python-level failure. -/
def pyErr (e : Except String α) : Except BodyErr α :=
  match e with
  | .error m => .error (.pyExc m)
  | .ok a => .ok a

/-- Tags a database flush/commit failure, which invalidates the session. -/
def dbErr (e : Except String α) : Except BodyErr α :=
  match e with
  | .error m => .error (.dbExc m)
  | .ok a => .ok a

/-- Embedding of `save_parsed_candidate` (save_to_db.py lines 7-100): read
and convert the candidate fields, flush the candidate row (where the
database enforces the NOT NULL constraint on `full_name`), read the child
rows, then apply the inserts and the resume link atomically.  Every Python
failure point precedes the single `db.commit()` of the call and a failed
flush rolls the transaction back, so a failed call persists nothing.  (Child
conversion errors raised after the flush leave an already-flushed candidate
row pending in the real session, which a later commit of the same session
would persist as an orphan row; no claim observes those rows and the model
leaves the store unchanged on such errors.) -/
def save_parsed_candidate (parsed : JVal) (resume_id : Nat) (db : DB) :
    Except BodyErr (DB × Nat) :=
  (pyErr (computeCandidateData parsed)).bind fun c =>
  (dbErr (flushCandidate c.full_name)).bind fun _ =>
  (pyErr (computeChildData parsed)).bind fun ch =>
  .ok (applySave c ch resume_id db)

/-! ## `background_tasks.py` -/

/-- Outcome of the `extract_text_from_file(file_url)` call (the extraction
gateway is an external collaborator; `background_tasks.py` imports it and
observes either a returned string or a raised exception). -/
inductive ExtractOutcome where
  | ok (text : String)
  | exn (msg : String)

/-- Outcome of the `parse_with_llm(extracted_text)` call as the orchestrator
observes it: the returned dict, or — defensively — a raised exception. -/
inductive ParseOutcome where
  | ok (payload : JVal)
  | exn (msg : String)

/-- Oracle for everything outside `process_resume_background` itself: the
extraction result, the parser result for a given text, and an optional
injected failure of the final `db.commit()` of the persistence call. -/
structure Env where
  extract : ExtractOutcome
  parse : String → ParseOutcome
  persistFault : Option String

/-- The persistence step: `save_parsed_candidate(parsed_data, resume_id, db)`.
`persistFault` models the call's final `db.commit()` failing in the database
layer: the transaction rolls back (nothing persists) and the session is left
pending-rollback, a `dbExc`. -/
def saveStep (env : Env) (parsed : JVal) (rid : Nat) (db : DB) :
    Except BodyErr (DB × Nat) :=
  match save_parsed_candidate parsed rid db with
  | .error e => .error e
  | .ok r =>
    match env.persistFault with
    | some m => .error (.dbExc m)
    | none => .ok r

/-- The guard `not extracted_text or len(extracted_text.strip()) < 50`
(background_tasks.py line 33). -/
def lowText (t : String) : Bool :=
  (t == "") || decide ((strTrim t).toList.length < 50)

/-- What the `try:` block of `process_resume_background` did: the session
state when it ended, whether `parse_with_llm` was invoked, the
`processing_status` values assigned in order, the `log_processing_event`
calls made, and the exception that reached the `except` clause, if any. -/
structure BodyOut where
  db : DB
  parserCalled : Bool
  statusWrites : List String
  events : List (String × Bool)
  err : Option BodyErr

/-- Embedding of the `try:` block of `process_resume_background`
(background_tasks.py lines 20-71).  The initial status write and the final
field updates happen only when the resume row was found; the bare
`resume.processing_status = "failed"` writes on lines 35 and 45 raise
`AttributeError` when it was not. -/
def processBody (env : Env) (rid : Nat) (db0 : DB) : BodyOut :=
  let hasResume := (db0.getResume rid).isSome
  let db1 := if hasResume then db0.setStatus rid "processing" else db0
  let sw1 := if hasResume then ["processing"] else []
  match env.extract with
  | .exn m => ⟨db1, false, sw1, [], some (.pyExc m)⟩
  | .ok text =>
    if lowText text then
      if hasResume then ⟨db1.setStatus rid "failed", false, sw1 ++ ["failed"], [], none⟩
      else ⟨db1, false, sw1, [], some (.pyExc "AttributeError: NoneType")⟩
    else
      match env.parse text with
      | .exn m => ⟨db1, true, sw1, [], some (.pyExc m)⟩
      | .ok parsed =>
        match pyContains "error" parsed with
        | .error m => ⟨db1, true, sw1, [], some (.pyExc m)⟩
        | .ok true =>
          if hasResume then ⟨db1.setStatus rid "failed", true, sw1 ++ ["failed"], [], none⟩
          else ⟨db1, true, sw1, [], some (.pyExc "AttributeError: NoneType")⟩
        | .ok false =>
          match saveStep env parsed rid db1 with
          | .error e => ⟨db1, true, sw1, [], some e⟩
          | .ok (db2, cid) =>
            match pyGet parsed "confidence" (.num 0) with
            | .error m => ⟨db2, true, sw1, [], some (.pyExc m)⟩
            | .ok conf =>
              match pyGet parsed "_model_used" (.str "unknown") with
              | .error m => ⟨db2, true, sw1, [], some (.pyExc m)⟩
              | .ok mu =>
                if hasResume then
                  ⟨db2.completeResume rid cid conf mu, true, sw1 ++ ["completed"],
                    [("BACKGROUND_PROCESSING_COMPLETE", true)], none⟩
                else ⟨db2, true, sw1, [("BACKGROUND_PROCESSING_COMPLETE", true)], none⟩

/-- Result of one whole `process_resume_background` call.  `escaped` is the
exception the caller sees, if any. -/
structure Run where
  db : DB
  parserCalled : Bool
  statusWrites : List String
  events : List (String × Bool)
  escaped : Option String

/-- Embedding of `process_resume_background` (background_tasks.py lines
15-93): run the body; on an exception, the `except Exception:` handler
re-queries the resume, sets its status to `"failed"` when it exists, and
emits the failure event.  When the body's exception was a failed
flush/commit (`dbExc`), the session is pending-rollback and the handler's
very first operation — the `db.query` on line 77 — itself raises
PendingRollbackError before any status write or event; there is no
`db.rollback()` and no nested handler, so that exception escapes the
function. -/
def process_resume_background (env : Env) (rid : Nat) (db0 : DB) : Run :=
  let b := processBody env rid db0
  match b.err with
  | none => ⟨b.db, b.parserCalled, b.statusWrites, b.events, none⟩
  | some (.pyExc _) =>
    if (b.db.getResume rid).isSome then
      ⟨b.db.setStatus rid "failed", b.parserCalled, b.statusWrites ++ ["failed"],
        b.events ++ [("BACKGROUND_PROCESSING_FAILED", false)], none⟩
    else
      ⟨b.db, b.parserCalled, b.statusWrites,
        b.events ++ [("BACKGROUND_PROCESSING_FAILED", false)], none⟩
  | some (.dbExc _) =>
    ⟨b.db, b.parserCalled, b.statusWrites, b.events, some "PendingRollbackError"⟩

/-! ## Supporting lemmas about the store -/

/-- Helper: mapping does not change whether an option is populated. -/
theorem optIsSomeMap (o : Option α) (f : α → β) : (o.map f).isSome = o.isSome := by
  cases o <;> rfl

/-- Helper: the last element of a list with one element appended. -/
theorem getLastAppendOne (l : List α) (a : α) : (l ++ [a]).getLast? = some a :=
  List.getLast?_concat l

/-- Helper: in-place update of the row with a given id commutes with looking
that id up, for id-preserving updates. -/
theorem find_set_id (rs : List Resume) (rid : Nat) (f : Resume → Resume)
    (hf : ∀ r, (f r).id = r.id) :
    (rs.map (fun r => if r.id == rid then f r else r)).find? (fun r => r.id == rid)
      = (rs.find? (fun r => r.id == rid)).map f := by
  induction rs with
  | nil => rfl
  | cons a rs ih =>
    have hid : ((if a.id == rid then f a else a).id == rid) = (a.id == rid) := by
      split
      · rw [hf a]
      · rfl
    rw [List.map_cons, List.find?_cons, List.find?_cons, hid]
    cases h : (a.id == rid) with
    | true => simp [h]
    | false => exact ih

/-- Helper: updating a resume row in place with an id-preserving function
commutes with looking the row up. -/
theorem getResume_setResume (db : DB) (rid : Nat) (f : Resume → Resume)
    (hf : ∀ r, (f r).id = r.id) :
    (db.setResume rid f).getResume rid = (db.getResume rid).map f :=
  find_set_id db.resumes rid f hf

/-- Helper: status writes land on the looked-up row. -/
theorem getResume_setStatus (db : DB) (rid : Nat) (s : String) :
    (db.setStatus rid s).getResume rid =
      (db.getResume rid).map (fun r => { r with processing_status := s }) :=
  getResume_setResume db rid _ (fun _ => rfl)

/-- Helper: the success-path field updates land on the looked-up row. -/
theorem getResume_completeResume (db : DB) (rid cid : Nat) (conf mu : JVal) :
    (db.completeResume rid cid conf mu).getResume rid =
      (db.getResume rid).map (fun r =>
        { r with candidate_id := some cid, parsed_confidence := conf,
                 parsed_model := mu, processing_status := "completed" }) :=
  getResume_setResume db rid _ (fun _ => rfl)

/-- Helper: a lookup only depends on the resumes table. -/
theorem getResume_congr {db1 db2 : DB} (h : db1.resumes = db2.resumes) (rid : Nat) :
    db1.getResume rid = db2.getResume rid := by
  simp [DB.getResume, h]

/-- Helper: the skills loop never touches the resumes table. -/
theorem applySkills_resumes (cid : Nat) (ss : List JVal) (db : DB) :
    (applySkills cid ss db).resumes = db.resumes := by
  induction ss generalizing db with
  | nil => rfl
  | cons s rest ih =>
    cases h : db.master_skills.find? (fun p => p.2 == s) <;>
      simp [applySkills, h, ih]

/-- Helper: the skills loop never touches the candidates table. -/
theorem applySkills_candidates (cid : Nat) (ss : List JVal) (db : DB) :
    (applySkills cid ss db).candidates = db.candidates := by
  induction ss generalizing db with
  | nil => rfl
  | cons s rest ih =>
    cases h : db.master_skills.find? (fun p => p.2 == s) <;>
      simp [applySkills, h, ih]

/-- Helper: the child-table inserts never touch the resumes table. -/
theorem applyChildren_resumes (ch : ChildData) (cid : Nat) (db : DB) :
    (applyChildren ch cid db).resumes = db.resumes := by
  simp [applyChildren, applySkills_resumes]

/-- Helper: the child-table inserts never touch the candidates table. -/
theorem applyChildren_candidates (ch : ChildData) (cid : Nat) (db : DB) :
    (applyChildren ch cid db).candidates = db.candidates := by
  simp [applyChildren, applySkills_candidates]

/-- Helper: the resume-linking step rewrites the looked-up row in place. -/
theorem linkResume_getResume (ch : ChildData) (cid rid : Nat) (db : DB) :
    (linkResume ch cid rid db).getResume rid =
      (db.getResume rid).map (fun r =>
        { r with candidate_id := some cid, parsed_confidence := JVal.num 90,
                 parsed_model := ch.model_used }) := by
  unfold linkResume
  cases h : db.getResume rid with
  | none => simp [h, Option.isSome]
  | some r =>
    rw [if_pos (by simp [h]),
      getResume_setResume db rid
        (fun r => { r with candidate_id := some cid, parsed_confidence := JVal.num 90,
                           parsed_model := ch.model_used })
        (fun _ => rfl),
      h]

/-- Helper: the resume-linking step never touches the candidates table. -/
theorem linkResume_candidates (ch : ChildData) (cid rid : Nat) (db : DB) :
    (linkResume ch cid rid db).candidates = db.candidates := by
  unfold linkResume
  split <;> rfl

/-- Helper: a successful save hands out the next candidate id. -/
theorem applySave_snd (c : CandData) (ch : ChildData) (rid : Nat) (db : DB) :
    (applySave c ch rid db).2 = db.nextCandidateId := rfl

/-- Helper: a successful save appends exactly one candidate row. -/
theorem applySave_candidates (c : CandData) (ch : ChildData) (rid : Nat) (db : DB) :
    (applySave c ch rid db).1.candidates =
      db.candidates ++ [mkCandidate c db.nextCandidateId] := by
  show (linkResume _ _ _ _).candidates = _
  rw [linkResume_candidates, applyChildren_candidates]

/-- Helper: a successful save links the resume row (when present) to the new
candidate id and stamps the placeholder confidence 90 and the payload's
model tag. -/
theorem applySave_getResume (c : CandData) (ch : ChildData) (rid : Nat) (db : DB) :
    (applySave c ch rid db).1.getResume rid =
      (db.getResume rid).map (fun r =>
        { r with candidate_id := some db.nextCandidateId,
                 parsed_confidence := JVal.num 90, parsed_model := ch.model_used }) := by
  show (linkResume _ _ _ _).getResume rid = _
  rw [linkResume_getResume,
    getResume_congr (applyChildren_resumes ch db.nextCandidateId _) rid]
  rfl

/-- Helper: unpacking a successful `save_parsed_candidate` call. -/
theorem save_eq_ok {parsed : JVal} {rid : Nat} {db db' : DB} {cid : Nat}
    (h : save_parsed_candidate parsed rid db = .ok (db', cid)) :
    ∃ c ch, computeCandidateData parsed = .ok c ∧
      flushCandidate c.full_name = .ok () ∧
      computeChildData parsed = .ok ch ∧
      db' = (applySave c ch rid db).1 ∧ cid = db.nextCandidateId := by
  unfold save_parsed_candidate at h
  cases h1 : computeCandidateData parsed with
  | error m =>
    rw [h1] at h
    simp only [pyErr, Except.bind] at h
    exact Except.noConfusion h
  | ok c =>
    rw [h1] at h
    simp only [pyErr, Except.bind] at h
    cases h2 : flushCandidate c.full_name with
    | error m =>
      rw [h2] at h
      simp only [dbErr, Except.bind] at h
      exact Except.noConfusion h
    | ok u =>
      cases u
      rw [h2] at h
      simp only [dbErr, Except.bind] at h
      cases h3 : computeChildData parsed with
      | error m =>
        rw [h3] at h
        simp only [pyErr, Except.bind] at h
        exact Except.noConfusion h
      | ok ch =>
        rw [h3] at h
        simp only [pyErr, Except.bind] at h
        injection h with h4
        exact ⟨c, ch, rfl, h2, rfl,
          by rw [h4], by rw [← applySave_snd c ch rid db, h4]⟩

/-- Helper: status writes leave the candidates table alone. -/
@[simp] theorem setStatus_candidates (db : DB) (rid : Nat) (s : String) :
    (db.setStatus rid s).candidates = db.candidates := rfl

/-- Helper: status writes leave the id counter alone. -/
@[simp] theorem setStatus_nextCandidateId (db : DB) (rid : Nat) (s : String) :
    (db.setStatus rid s).nextCandidateId = db.nextCandidateId := rfl

/-- Helper: the success-path field updates leave the candidates table alone. -/
@[simp] theorem completeResume_candidates (db : DB) (rid cid : Nat) (conf mu : JVal) :
    (db.completeResume rid cid conf mu).candidates = db.candidates := rfl

/-- Helper: the success-path field updates leave the id counter alone. -/
@[simp] theorem completeResume_nextCandidateId (db : DB) (rid cid : Nat) (conf mu : JVal) :
    (db.completeResume rid cid conf mu).nextCandidateId = db.nextCandidateId := rfl

/-- Helper: a successful persistence step is a successful
`save_parsed_candidate` call with no injected commit fault. -/
theorem saveStep_ok {env : Env} {parsed : JVal} {rid : Nat} {db db' : DB} {cid : Nat}
    (h : saveStep env parsed rid db = .ok (db', cid)) :
    env.persistFault = none ∧ save_parsed_candidate parsed rid db = .ok (db', cid) := by
  unfold saveStep at h
  cases h1 : save_parsed_candidate parsed rid db with
  | error e =>
    rw [h1] at h
    exact Except.noConfusion h
  | ok r =>
    rw [h1] at h
    cases hf : env.persistFault with
    | some m =>
      rw [hf] at h
      exact Except.noConfusion h
    | none =>
      rw [hf] at h
      injection h with h2
      exact ⟨rfl, by rw [h2]⟩

/-- Helper: the payload of a successful save is a dict (its very first read
would raise otherwise). -/
theorem computeCandidateData_obj {parsed : JVal} {c : CandData}
    (h : computeCandidateData parsed = .ok c) : ∃ fs, parsed = JVal.obj fs := by
  cases parsed with
  | obj fs => exact ⟨fs, rfl⟩
  | null => exact Except.noConfusion h
  | bool b => exact Except.noConfusion h
  | num q => exact Except.noConfusion h
  | str s => exact Except.noConfusion h
  | arr xs => exact Except.noConfusion h

/-- Helper: every run of `process_resume_background` on an existing
submission ends in exactly one of three shapes — the handled-failure shape,
whose only effect on the store is the resume's status becoming `"failed"`;
the session-invalidated shape, where a failed flush/commit makes the handler
itself raise, leaving the status at `"processing"`, the store unchanged and
an escaping exception; or the success shape, which links the resume to the
one freshly appended candidate row, stores the payload's confidence
(default 0) and model tag (default `"unknown"`), and sets the status to
`"completed"`.  In every shape the first status write of the run is
`"processing"`. -/
theorem run_outcomes (env : Env) (rid : Nat) (db0 : DB) (r0 : Resume)
    (hres : db0.getResume rid = some r0) :
    ((process_resume_background env rid db0).db.getResume rid =
        some { r0 with processing_status := "failed" } ∧
      (process_resume_background env rid db0).db.candidates = db0.candidates ∧
      (process_resume_background env rid db0).db.nextCandidateId = db0.nextCandidateId ∧
      (process_resume_background env rid db0).statusWrites.head? = some "processing") ∨
    ((process_resume_background env rid db0).db.getResume rid =
        some { r0 with processing_status := "processing" } ∧
      (process_resume_background env rid db0).db.candidates = db0.candidates ∧
      (process_resume_background env rid db0).db.nextCandidateId = db0.nextCandidateId ∧
      (process_resume_background env rid db0).statusWrites.head? = some "processing" ∧
      (process_resume_background env rid db0).escaped = some "PendingRollbackError") ∨
    (∃ t fs c,
      env.extract = .ok t ∧ lowText t = false ∧ env.parse t = .ok (.obj fs) ∧
      env.persistFault = none ∧ computeCandidateData (.obj fs) = .ok c ∧
      (process_resume_background env rid db0).db.getResume rid =
        some { r0 with
          candidate_id := some db0.nextCandidateId,
          parsed_confidence := (fs.lookup "confidence").getD (.num 0),
          parsed_model := (fs.lookup "_model_used").getD (.str "unknown"),
          processing_status := "completed" } ∧
      (process_resume_background env rid db0).db.candidates =
        db0.candidates ++ [mkCandidate c db0.nextCandidateId] ∧
      (process_resume_background env rid db0).statusWrites.head? = some "processing") := by
  have hsome : (db0.getResume rid).isSome := by simp [hres]
  cases hx : env.extract with
  | exn m =>
    left
    have hpb : processBody env rid db0 =
        ⟨db0.setStatus rid "processing", false, ["processing"], [], some (.pyExc m)⟩ := by
      simp [processBody, hx, hsome]
    simp [process_resume_background, hpb, getResume_setStatus, hres]
  | ok t =>
    cases hlt : lowText t with
    | true =>
      left
      have hpb : processBody env rid db0 =
          ⟨(db0.setStatus rid "processing").setStatus rid "failed", false,
            ["processing", "failed"], [], none⟩ := by
        simp [processBody, hx, hsome, hlt]
      simp [process_resume_background, hpb, getResume_setStatus, hres]
    | false =>
      cases hp : env.parse t with
      | exn m =>
        left
        have hpb : processBody env rid db0 =
            ⟨db0.setStatus rid "processing", true, ["processing"], [], some (.pyExc m)⟩ := by
          simp [processBody, hx, hsome, hlt, hp]
        simp [process_resume_background, hpb, getResume_setStatus, hres]
      | ok parsed =>
        cases hc : pyContains "error" parsed with
        | error m =>
          left
          have hpb : processBody env rid db0 =
              ⟨db0.setStatus rid "processing", true, ["processing"], [], some (.pyExc m)⟩ := by
            simp [processBody, hx, hsome, hlt, hp, hc]
          simp [process_resume_background, hpb, getResume_setStatus, hres]
        | ok b =>
          cases b with
          | true =>
            left
            have hpb : processBody env rid db0 =
                ⟨(db0.setStatus rid "processing").setStatus rid "failed", true,
                  ["processing", "failed"], [], none⟩ := by
              simp [processBody, hx, hsome, hlt, hp, hc]
            simp [process_resume_background, hpb, getResume_setStatus, hres]
          | false =>
            cases hs : saveStep env parsed rid (db0.setStatus rid "processing") with
            | error e =>
              cases e with
              | pyExc m =>
                left
                have hpb : processBody env rid db0 =
                    ⟨db0.setStatus rid "processing", true, ["processing"], [],
                      some (.pyExc m)⟩ := by
                  simp [processBody, hx, hsome, hlt, hp, hc, hs]
                simp [process_resume_background, hpb, getResume_setStatus, hres]
              | dbExc m =>
                right; left
                have hpb : processBody env rid db0 =
                    ⟨db0.setStatus rid "processing", true, ["processing"], [],
                      some (.dbExc m)⟩ := by
                  simp [processBody, hx, hsome, hlt, hp, hc, hs]
                simp [process_resume_background, hpb, getResume_setStatus, hres]
            | ok pr =>
              rcases pr with ⟨db2, cid⟩
              obtain ⟨hpf, hsave⟩ := saveStep_ok hs
              obtain ⟨c, ch, hcd, hfl, hch, hdb2, hcid⟩ := save_eq_ok hsave
              obtain ⟨fs, rfl⟩ := computeCandidateData_obj hcd
              right; right
              refine ⟨t, fs, c, rfl, hlt, hp, hpf, hcd, ?_, ?_, ?_⟩
              · have hpb : processBody env rid db0 =
                    ⟨db2.completeResume rid cid ((fs.lookup "confidence").getD (.num 0))
                        ((fs.lookup "_model_used").getD (.str "unknown")), true,
                      ["processing", "completed"],
                      [("BACKGROUND_PROCESSING_COMPLETE", true)], none⟩ := by
                  simp [processBody, hx, hsome, hlt, hp, hc, hs, pyGet]
                have hg2 : db2.getResume rid =
                    some { r0 with
                      candidate_id := some db0.nextCandidateId,
                      parsed_confidence := JVal.num 90,
                      parsed_model := ch.model_used,
                      processing_status := "processing" } := by
                  rw [hdb2, applySave_getResume, getResume_setStatus, hres]
                  rfl
                rw [hcid] at hpb
                simp [process_resume_background, hpb, getResume_completeResume, hg2]
              · have hpb : processBody env rid db0 =
                    ⟨db2.completeResume rid cid ((fs.lookup "confidence").getD (.num 0))
                        ((fs.lookup "_model_used").getD (.str "unknown")), true,
                      ["processing", "completed"],
                      [("BACKGROUND_PROCESSING_COMPLETE", true)], none⟩ := by
                  simp [processBody, hx, hsome, hlt, hp, hc, hs, pyGet]
                have hc2 : db2.candidates =
                    db0.candidates ++ [mkCandidate c db0.nextCandidateId] := by
                  rw [hdb2, applySave_candidates]; rfl
                simp [process_resume_background, hpb, DB.completeResume, DB.setResume, hc2]
              · have hpb : processBody env rid db0 =
                    ⟨db2.completeResume rid cid ((fs.lookup "confidence").getD (.num 0))
                        ((fs.lookup "_model_used").getD (.str "unknown")), true,
                      ["processing", "completed"],
                      [("BACKGROUND_PROCESSING_COMPLETE", true)], none⟩ := by
                  simp [processBody, hx, hsome, hlt, hp, hc, hs, pyGet]
                simp [process_resume_background, hpb]

/-- Helper: in every branch the body leaves the resume row present. -/
theorem processBody_resume_isSome (env : Env) (rid : Nat) (db0 : DB) (r0 : Resume)
    (hres : db0.getResume rid = some r0) :
    ((processBody env rid db0).db.getResume rid).isSome := by
  have hsome : (db0.getResume rid).isSome := by simp [hres]
  have hg1 : (db0.setStatus rid "processing").getResume rid =
      some { r0 with processing_status := "processing" } := by
    rw [getResume_setStatus, hres]; rfl
  cases hx : env.extract with
  | exn m => simp [processBody, hx, hsome, hg1]
  | ok t =>
    cases hlt : lowText t with
    | true => simp [processBody, hx, hsome, hlt, getResume_setStatus, hg1]
    | false =>
      cases hp : env.parse t with
      | exn m => simp [processBody, hx, hsome, hlt, hp, hg1]
      | ok parsed =>
        cases hc : pyContains "error" parsed with
        | error m => simp [processBody, hx, hsome, hlt, hp, hc, hg1]
        | ok b =>
          cases b with
          | true => simp [processBody, hx, hsome, hlt, hp, hc, getResume_setStatus, hg1]
          | false =>
            cases hs : saveStep env parsed rid (db0.setStatus rid "processing") with
            | error e => simp [processBody, hx, hsome, hlt, hp, hc, hs, hg1]
            | ok pr =>
              rcases pr with ⟨db2, cid⟩
              obtain ⟨hpf, hsave⟩ := saveStep_ok hs
              obtain ⟨c, ch, hcd, hfl, hch, hdb2, hcid⟩ := save_eq_ok hsave
              have hg2 : (db2.getResume rid).isSome := by
                rw [hdb2, applySave_getResume, hg1]; rfl
              obtain ⟨fs, rfl⟩ := computeCandidateData_obj hcd
              simp [processBody, hx, hsome, hlt, hp, hc, hs, pyGet,
                getResume_completeResume, optIsSomeMap, hg2]

/-- C4 amended: exceptions raised by ordinary Python code — the extraction
call, the parser call, and the payload conversions of the persistence step —
are caught by the `except Exception:` handler and converted to the
`"failed"` status plus the failure event, with nothing escaping; but when
the body's exception is a failed database flush or commit, the session is
pending-rollback and the handler's own first query raises
PendingRollbackError, which escapes `process_resume_background`. -/
theorem c4_amended_only_python_errors_contained (env : Env) (rid : Nat) (db0 : DB)
    (r0 : Resume) (hres : db0.getResume rid = some r0) :
    ((processBody env rid db0).err = none →
      (process_resume_background env rid db0).escaped = none) ∧
    (∀ m, (processBody env rid db0).err = some (.pyExc m) →
      (process_resume_background env rid db0).escaped = none ∧
      ((process_resume_background env rid db0).db.getResume rid).map
          Resume.processing_status = some "failed" ∧
      (process_resume_background env rid db0).events.getLast? =
        some ("BACKGROUND_PROCESSING_FAILED", false)) ∧
    (∀ m, (processBody env rid db0).err = some (.dbExc m) →
      (process_resume_background env rid db0).escaped =
        some "PendingRollbackError") := by
  have hp := processBody_resume_isSome env rid db0 r0 hres
  rcases hb : processBody env rid db0 with ⟨bdb, bpc, bsw, bev, berr⟩
  rw [hb] at hp
  cases berr with
  | none =>
    refine ⟨fun _ => ?_, fun m hm => ?_, fun m hm => ?_⟩
    · simp [process_resume_background, hb]
    · simp at hm
    · simp at hm
  | some e =>
    cases e with
    | pyExc m0 =>
      obtain ⟨r1, hr1⟩ := Option.isSome_iff_exists.mp hp
      refine ⟨fun hnone => ?_, fun m hm => ⟨?_, ?_, ?_⟩, fun m hm => ?_⟩
      · simp at hnone
      · simp [process_resume_background, hb, hp]
      · simp [process_resume_background, hb, hp, getResume_setStatus, hr1]
      · simp [process_resume_background, hb, hp, getLastAppendOne]
      · simp at hm
    | dbExc m0 =>
      refine ⟨fun hnone => ?_, fun m hm => ?_, fun m hm => ?_⟩
      · simp at hnone
      · simp at hm
      · simp [process_resume_background, hb]

/-- An intake-fresh submission row, as `/upload` creates it. -/
def resume0 : Resume := ⟨1, none, "cv.pdf", "s3://bucket/cv.pdf", .num 0, .null, "pending"⟩

/-- A store holding only the fresh submission. -/
def db0c : DB := ⟨[resume0], [], [], [], [], [], [], [], [], 1, 1⟩

/-- A resume text longer than the 50-character threshold. -/
def longText : String := "Jane Doe is a senior software engineer with ten years of experience."

/-- An environment whose extraction step raises. -/
def envExn : Env := ⟨.exn "boom", fun _ => .exn "unused", none⟩

/-- A payload with no `full_name` — precisely what an LLM answering the
prompt on a name-less document can return; its candidate row violates the
NOT NULL constraint at `db.flush()`. -/
def payloadNoName : JVal := .obj [("confidence", .num 50)]

/-- An environment that extracts a long text and parses it to
`payloadNoName`. -/
def envC4 : Env := ⟨.ok longText, fun _ => .ok payloadNoName, none⟩

/-- C4 counterexample: on a payload whose `full_name` is missing, the
candidate INSERT fails the NOT NULL constraint at `db.flush()`, the session
is left pending-rollback, and the handler's own `db.query` raises — the
exception escapes `process_resume_background`, the submission's status stays
`"processing"`, and no failure event is emitted, so the caller is notified
by a thrown error rather than through the status. -/
theorem c4_counterexample_db_error_escapes :
    (process_resume_background envC4 1 db0c).escaped = some "PendingRollbackError" ∧
    (process_resume_background envC4 1 db0c).escaped ≠ none ∧
    ((process_resume_background envC4 1 db0c).db.getResume 1).map
        Resume.processing_status = some "processing" ∧
    (process_resume_background envC4 1 db0c).events = [] := by
  refine ⟨rfl, ?_, rfl, rfl⟩
  intro h
  rw [show (process_resume_background envC4 1 db0c).escaped =
      some "PendingRollbackError" from rfl] at h
  simp at h

/-- C4 amended witness: with a raising extraction step (a Python-level
error) on the fresh store, nothing escapes and the submission ends
`"failed"` with the failure event emitted; a database-level body error would
escape as PendingRollbackError. -/
theorem c4_amended_only_python_errors_contained_witness :
    (((processBody envExn 1 db0c).err = none →
      (process_resume_background envExn 1 db0c).escaped = none) ∧
    (∀ m, (processBody envExn 1 db0c).err = some (.pyExc m) →
      (process_resume_background envExn 1 db0c).escaped = none ∧
      ((process_resume_background envExn 1 db0c).db.getResume 1).map
          Resume.processing_status = some "failed" ∧
      (process_resume_background envExn 1 db0c).events.getLast? =
        some ("BACKGROUND_PROCESSING_FAILED", false)) ∧
    (∀ m, (processBody envExn 1 db0c).err = some (.dbExc m) →
      (process_resume_background envExn 1 db0c).escaped =
        some "PendingRollbackError")) :=
  c4_amended_only_python_errors_contained envExn 1 db0c resume0 rfl

/-- C5: when extraction yields an empty text, or a text whose trimmed length
is below 50 characters, the run marks the submission `"failed"` and
`parse_with_llm` is never invoked. -/
theorem c5_short_text_fails_without_parsing (env : Env) (rid : Nat) (db0 : DB)
    (r0 : Resume) (t : String)
    (hres : db0.getResume rid = some r0) (hx : env.extract = .ok t)
    (hshort : t = "" ∨ (strTrim t).toList.length < 50) :
    (process_resume_background env rid db0).parserCalled = false ∧
    ((process_resume_background env rid db0).db.getResume rid).map
        Resume.processing_status = some "failed" := by
  have hsome : (db0.getResume rid).isSome := by simp [hres]
  have hlt : lowText t = true := by
    rcases hshort with h | h
    · simp [lowText, h]
    · simp only [lowText, Bool.or_eq_true, decide_eq_true_eq]
      exact Or.inr h
  have hpb : processBody env rid db0 =
      ⟨(db0.setStatus rid "processing").setStatus rid "failed", false,
        ["processing", "failed"], [], none⟩ := by
    simp [processBody, hx, hsome, hlt]
  simp [process_resume_background, hpb, getResume_setStatus, hres]

/-- An environment whose extraction returns a nine-character text. -/
def envShort : Env := ⟨.ok "too short", fun _ => .exn "unused", none⟩

/-- C5 witness: the concrete nine-character text fails the run without the
parser being called. -/
theorem c5_short_text_fails_without_parsing_witness :
    (process_resume_background envShort 1 db0c).parserCalled = false ∧
    ((process_resume_background envShort 1 db0c).db.getResume 1).map
        Resume.processing_status = some "failed" :=
  c5_short_text_fails_without_parsing envShort 1 db0c resume0 "too short" rfl rfl
    (Or.inr (by decide))

/-- The claim's reading of a stored confidence: a non-null number within
[0, 100]. -/
def confidenceInRange : JVal → Bool
  | .num q => decide (0 ≤ q) && decide (q ≤ 100)
  | _ => false

/-- A payload with a proper name but a provider-supplied confidence of JSON
null: the candidate row satisfies the NOT NULL constraint, so the real run
completes, and `parsed_data.get("confidence", 0)` passes the null through. -/
def payloadC3 : JVal := .obj [("full_name", .str "Jane Doe"), ("confidence", .null)]

/-- An environment that extracts a long text and parses it to `payloadC3`. -/
def envC3 : Env := ⟨.ok longText, fun _ => .ok payloadC3, none⟩

/-- C3 counterexample: a run can finish `"completed"` while the stored
confidence is null — neither non-null nor within [0, 100] — because the code
stores `parsed_data.get("confidence", 0)` without any validation: the
default 0 applies only when the key is absent, not when the provider
supplies `"confidence": null`. -/
theorem c3_counterexample_completed_with_null_confidence :
    ((process_resume_background envC3 1 db0c).db.getResume 1).map
        Resume.processing_status = some "completed" ∧
    ((process_resume_background envC3 1 db0c).db.getResume 1).map
        Resume.parsed_confidence = some JVal.null ∧
    confidenceInRange JVal.null = false := by
  refine ⟨?_, ?_, rfl⟩ <;> rfl

/-- C3 amended: on a submission that exists and is initially unlinked, a
final `"completed"` status implies the submission is linked to the candidate
record the run created, and a final `"failed"` status implies it is still
unlinked; the stored confidence and provider identifier are the payload's
values (default 0 and `"unknown"`), stored without validation. -/
theorem c3_amended_terminal_state_invariants (env : Env) (rid : Nat) (db0 : DB)
    (r0 : Resume) (hres : db0.getResume rid = some r0)
    (hunlinked : r0.candidate_id = none) :
    (((process_resume_background env rid db0).db.getResume rid).map
        Resume.processing_status = some "completed" →
      ∃ r1, (process_resume_background env rid db0).db.getResume rid = some r1 ∧
        r1.candidate_id = some db0.nextCandidateId) ∧
    (((process_resume_background env rid db0).db.getResume rid).map
        Resume.processing_status = some "failed" →
      ∃ r1, (process_resume_background env rid db0).db.getResume rid = some r1 ∧
        r1.candidate_id = none) := by
  rcases run_outcomes env rid db0 r0 hres with ⟨hg, _, _, _⟩ |
    ⟨hg, _, _, _, _⟩ | ⟨t, fs, c, _, _, _, _, _, hg, _, _⟩
  · constructor
    · intro h
      rw [hg] at h
      simp at h
    · intro _
      exact ⟨_, hg, hunlinked⟩
  · constructor
    · intro h
      rw [hg] at h
      simp at h
    · intro h
      rw [hg] at h
      simp at h
  · constructor
    · intro _
      exact ⟨_, hg, rfl⟩
    · intro h
      rw [hg] at h
      simp at h

/-- C3 amended witness: on the concrete fresh store, the null-confidence run
completes linked, and the raising-extraction run fails unlinked. -/
theorem c3_amended_terminal_state_invariants_witness :
    ((((process_resume_background envC3 1 db0c).db.getResume 1).map
        Resume.processing_status = some "completed" →
      ∃ r1, (process_resume_background envC3 1 db0c).db.getResume 1 = some r1 ∧
        r1.candidate_id = some db0c.nextCandidateId) ∧
    (((process_resume_background envC3 1 db0c).db.getResume 1).map
        Resume.processing_status = some "failed" →
      ∃ r1, (process_resume_background envC3 1 db0c).db.getResume 1 = some r1 ∧
        r1.candidate_id = none)) :=
  c3_amended_terminal_state_invariants envC3 1 db0c resume0 rfl rfl

/-- An already-processed candidate row. -/
def cand1 : Candidate := ⟨1, .str "Jane Doe", .null, .null, .null, .null, .null, 10, .null⟩

/-- A submission already in the terminal `"completed"` state, linked to
`cand1`. -/
def resumeDone : Resume :=
  ⟨1, some 1, "cv.pdf", "s3://bucket/cv.pdf", .num 90,
    .str "Groq:llama-3.1-8b-instant", "completed"⟩

/-- A store holding the completed submission and its candidate. -/
def db7c : DB := ⟨[resumeDone], [cand1], [], [], [], [], [], [], [], 2, 1⟩

/-- A minimal successful payload for the rerun. -/
def payloadC7 : JVal := .obj [("full_name", .str "Jane Doe")]

/-- An environment that extracts a long text and parses it to `payloadC7`. -/
def envC7 : Env := ⟨.ok longText, fun _ => .ok payloadC7, none⟩

/-- C7 counterexample: re-running `process_resume_background` on an
already-completed submission is neither rejected nor a no-op — the function
first writes `"processing"` (leaving the terminal state) and then creates a
second candidate record for the same submission. -/
theorem c7_counterexample_rerun_not_idempotent :
    resumeDone.processing_status = "completed" ∧
    db7c.candidates.length = 1 ∧
    (process_resume_background envC7 1 db7c).statusWrites.head? = some "processing" ∧
    (process_resume_background envC7 1 db7c).db.candidates.length = 2 := by
  refine ⟨rfl, rfl, ?_, ?_⟩ <;> rfl

/-- C7 amended: `process_resume_background` performs no terminal-state check:
on a submission whose status is already `"completed"` it writes
`"processing"` again as its first status write, and whenever the rerun ends
`"completed"` it has appended one more candidate record to the store. -/
theorem c7_amended_rerun_reprocesses (env : Env) (rid : Nat) (db0 : DB) (r0 : Resume)
    (hres : db0.getResume rid = some r0)
    (hdone : r0.processing_status = "completed") :
    (process_resume_background env rid db0).statusWrites.head? = some "processing" ∧
    (((process_resume_background env rid db0).db.getResume rid).map
        Resume.processing_status = some "completed" →
      (process_resume_background env rid db0).db.candidates.length =
        db0.candidates.length + 1) := by
  rcases run_outcomes env rid db0 r0 hres with ⟨hg, _, _, hw⟩ |
    ⟨hg, _, _, hw, _⟩ | ⟨t, fs, c, _, _, _, _, _, hg, hc, hw⟩
  · refine ⟨hw, fun h => ?_⟩
    rw [hg] at h
    simp at h
  · refine ⟨hw, fun h => ?_⟩
    rw [hg] at h
    simp at h
  · refine ⟨hw, fun _ => ?_⟩
    rw [hc]
    simp

/-- C7 amended witness: the concrete rerun on the completed submission writes
`"processing"` and grows the candidates table from 1 row to 2. -/
theorem c7_amended_rerun_reprocesses_witness :
    (process_resume_background envC7 1 db7c).statusWrites.head? = some "processing" ∧
    (((process_resume_background envC7 1 db7c).db.getResume 1).map
        Resume.processing_status = some "completed" →
      (process_resume_background envC7 1 db7c).db.candidates.length =
        db7c.candidates.length + 1) :=
  c7_amended_rerun_reprocesses envC7 1 db7c resumeDone rfl rfl

/-- C8: whenever a run on an existing submission ends `"completed"`, the
stored confidence is exactly the payload's `"confidence"` entry when the
provider supplied one, and the fixed default 0 otherwise. -/
theorem c8_confidence_passthrough_or_default (env : Env) (rid : Nat) (db0 : DB)
    (r0 : Resume) (t : String) (P : JVal)
    (hres : db0.getResume rid = some r0)
    (hx : env.extract = .ok t) (hp : env.parse t = .ok P)
    (hcomp : ((process_resume_background env rid db0).db.getResume rid).map
        Resume.processing_status = some "completed") :
    ((process_resume_background env rid db0).db.getResume rid).map
        Resume.parsed_confidence = some ((jget P "confidence").getD (.num 0)) := by
  rcases run_outcomes env rid db0 r0 hres with ⟨hg, _, _, _⟩ |
    ⟨hg, _, _, _, _⟩ | ⟨t', fs, c, hx', hlt, hp', _, _, hg, _, _⟩
  · rw [hg] at hcomp
    simp at hcomp
  · rw [hg] at hcomp
    simp at hcomp
  · rw [hx] at hx'
    injection hx' with ht
    subst ht
    rw [hp] at hp'
    injection hp' with hP
    subst hP
    rw [hg]
    rfl

/-- A payload whose provider supplied the confidence 75 (and a name, so the
flush succeeds). -/
def payloadC8 : JVal :=
  .obj [("full_name", .str "Jane Doe"), ("confidence", .num 75),
    ("_model_used", .str "Groq:llama-3.1-8b-instant")]

/-- An environment that extracts a long text and parses it to `payloadC8`. -/
def envC8 : Env := ⟨.ok longText, fun _ => .ok payloadC8, none⟩

/-- C8 witness: the concrete completed run stores the supplied confidence 75
unchanged (and the same theorem applied to `envC3`, whose payload omits a
numeric confidence, yields the default). -/
theorem c8_confidence_passthrough_or_default_witness :
    ((process_resume_background envC8 1 db0c).db.getResume 1).map
        Resume.parsed_confidence = some ((jget payloadC8 "confidence").getD (.num 0)) :=
  c8_confidence_passthrough_or_default envC8 1 db0c resume0 longText payloadC8
    rfl rfl rfl (by rfl)

/-- Helper: the converted experience value of a successful candidate
construction is the Python `float(parsed.get("total_experience_years") or 0)`
of the payload. -/
theorem computeCandidateData_tey {fs : List (String × JVal)} {c : CandData}
    (h : computeCandidateData (.obj fs) = .ok c) :
    pyFloat (pyOr ((fs.lookup "total_experience_years").getD JVal.null) (JVal.num 0)) =
      .ok c.total_experience_years := by
  simp only [computeCandidateData, pyGet, Except.bind] at h
  cases hf : pyFloat (pyOr ((fs.lookup "total_experience_years").getD JVal.null)
      (JVal.num 0)) with
  | error e =>
    rw [hf] at h
    simp only [Except.bind] at h
    exact Except.noConfusion h
  | ok tey =>
    rw [hf] at h
    simp only [Except.bind] at h
    injection h with h9
    rw [← h9]

/-- C10: `float(parsed.get("total_experience_years") or 0)` — an absent,
null or empty-string field stores 0 on the created candidate; a non-numeric
string such as `"5 years"` makes the conversion raise before the function
reaches its commit, so the call returns the conversion error and persists no
candidate record and no child rows. -/
theorem c10_total_experience_conversion :
    (∀ (rid : Nat) (db db' : DB) (parsed : JVal) (cid : Nat),
      save_parsed_candidate parsed rid db = .ok (db', cid) →
      (jget parsed "total_experience_years" = none ∨
       jget parsed "total_experience_years" = some JVal.null ∨
       jget parsed "total_experience_years" = some (.str "")) →
      (db'.candidates.getLast?).map Candidate.id = some cid ∧
      (db'.candidates.getLast?).map Candidate.total_experience_years = some 0) ∧
    (∀ (rid : Nat) (db : DB) (fs : List (String × JVal)),
      fs.lookup "total_experience_years" = some (.str "5 years") →
      save_parsed_candidate (.obj fs) rid db =
        .error (.pyExc "could not convert string to float: 5 years")) := by
  constructor
  · intro rid db db' parsed cid hsave habs
    obtain ⟨c, ch, hcd, hfl, hch, hdb', hcid⟩ := save_eq_ok hsave
    obtain ⟨fs, rfl⟩ := computeCandidateData_obj hcd
    have htey := computeCandidateData_tey hcd
    have hl : (fs.lookup "total_experience_years").getD JVal.null = JVal.null ∨
        (fs.lookup "total_experience_years").getD JVal.null = JVal.str "" := by
      rcases habs with h | h | h
      · left
        simp only [jget] at h
        rw [h]
        rfl
      · left
        simp only [jget] at h
        rw [h]
        rfl
      · right
        simp only [jget] at h
        rw [h]
        rfl
    have h0 : c.total_experience_years = 0 := by
      rcases hl with h | h <;> rw [h] at htey <;>
        · simp only [pyOr, truthy, pyFloat] at htey
          simp at htey
          exact htey.symm
    constructor
    · rw [hdb', applySave_candidates, getLastAppendOne, hcid]
      rfl
    · rw [hdb', applySave_candidates, getLastAppendOne]
      simp [mkCandidate, h0]
  · intro rid db fs hl
    have h : computeCandidateData (.obj fs) =
        .error "could not convert string to float: 5 years" := by
      simp only [computeCandidateData, pyGet, Except.bind]
      rw [hl]
      rfl
    unfold save_parsed_candidate
    rw [h]
    rfl

/-- A payload with no `total_experience_years` field at all. -/
def payloadAbs : JVal := .obj [("full_name", .str "Jane Doe")]

/-- The store produced by saving `payloadAbs` into the fresh store. -/
def dbAbs : DB :=
  match save_parsed_candidate payloadAbs 1 db0c with
  | .ok (db, _) => db
  | .error _ => db0c

/-- Payload fields holding the malformed experience string. -/
def fs5y : List (String × JVal) := [("total_experience_years", .str "5 years")]

/-- C10 witness: saving the field-less payload stores experience 0 on the
created candidate with id 1, and saving the `"5 years"` payload returns the
float-conversion error. -/
theorem c10_total_experience_conversion_witness :
    ((dbAbs.candidates.getLast?).map Candidate.id = some 1 ∧
     (dbAbs.candidates.getLast?).map Candidate.total_experience_years = some 0) ∧
    save_parsed_candidate (.obj fs5y) 1 db0c =
      .error (.pyExc "could not convert string to float: 5 years") :=
  ⟨c10_total_experience_conversion.1 1 db0c dbAbs payloadAbs 1 (by rfl) (Or.inl rfl),
   c10_total_experience_conversion.2 1 db0c fs5y rfl⟩

/-! ## `start_background_processing` and concurrency

`start_background_processing` (background_tasks.py lines 95-106) spawns one
daemon thread per call and starts it immediately; there is no worker pool,
semaphore or queue anywhere in the module.  The transition system below
models `m` dispatched submissions: each worker thread is past `thread.start()`
from the outset (phase 0), its first database action sets its submission's
status to `"processing"` (line 26, phase 1), and it later finishes with a
terminal status (phase 2).  Because the dispatcher imposes no gate, the
`mark` step of any worker is enabled regardless of how many other workers
are already in `"processing"`. -/

/-- One dispatched submission: its status and its worker thread's progress
(0 = started, before the first status write; 1 = wrote `"processing"`;
2 = finished). -/
structure WorkerState where
  status : String
  phase : Nat
deriving DecidableEq

/-- State right after `start_background_processing` has been called for each
of `m` pending submissions: every thread is started, no status written yet. -/
def dispatchInit (m : Nat) : List WorkerState := List.replicate m ⟨"pending", 0⟩

/-- Interleaving steps of the dispatched workers. -/
inductive DispatchStep : List WorkerState → List WorkerState → Prop where
  | mark (ws : List WorkerState) (i : Nat) (s : String)
      (h : ws[i]? = some ⟨s, 0⟩) :
      DispatchStep ws (ws.set i ⟨"processing", 1⟩)
  | finish (ws : List WorkerState) (i : Nat) (s s' : String)
      (h : ws[i]? = some ⟨s, 1⟩)
      (h2 : s' = "completed" ∨ s' = "failed") :
      DispatchStep ws (ws.set i ⟨s', 2⟩)

/-- Reachability under worker interleavings. -/
inductive DispatchReach : List WorkerState → List WorkerState → Prop where
  | refl (ws : List WorkerState) : DispatchReach ws ws
  | tail {a b c : List WorkerState} :
      DispatchReach a b → DispatchStep b c → DispatchReach a c

/-- Number of submissions simultaneously in `"processing"`. -/
def countProcessing (ws : List WorkerState) : Nat :=
  (ws.filter (fun w => w.status == "processing")).length

/-- C9 as stated, for a purported worker-pool size `bound`: every state
reachable from dispatching `m` submissions has at most `bound` of them in
`"processing"` simultaneously. -/
def boundedByPool (bound m : Nat) : Prop :=
  ∀ ws, DispatchReach (dispatchInit m) ws → countProcessing ws ≤ bound

/-- C9 counterexample: already for a pool bound of 1 and `m = 2` dispatched
submissions, the interleaving that lets both started threads perform their
first status write reaches a state with 2 submissions in `"processing"` —
the dispatcher has no pool or semaphore to delay the second one. -/
theorem c9_counterexample_no_concurrency_bound : ¬ boundedByPool 1 2 := by
  intro h
  have s1 : DispatchStep (dispatchInit 2) [⟨"processing", 1⟩, ⟨"pending", 0⟩] :=
    DispatchStep.mark (dispatchInit 2) 0 "pending" rfl
  have s2 : DispatchStep [⟨"processing", 1⟩, ⟨"pending", 0⟩]
      [⟨"processing", 1⟩, ⟨"processing", 1⟩] :=
    DispatchStep.mark [⟨"processing", 1⟩, ⟨"pending", 0⟩] 1 "pending" rfl
  have hr : DispatchReach (dispatchInit 2) [⟨"processing", 1⟩, ⟨"processing", 1⟩] :=
    .tail (.tail (.refl _) s1) s2
  have hc := h _ hr
  simp [countProcessing] at hc

/-- Helper: a step of the tail lifts over an untouched head worker. -/
theorem step_cons (w : WorkerState) {a b : List WorkerState}
    (h : DispatchStep a b) : DispatchStep (w :: a) (w :: b) := by
  cases h with
  | mark i s hh =>
    exact DispatchStep.mark (w :: a) (i + 1) s (by simpa using hh)
  | finish i s s' hh h2 =>
    exact DispatchStep.finish (w :: a) (i + 1) s s' (by simpa using hh) h2

/-- Helper: reachability lifts over an untouched head worker. -/
theorem reach_cons (w : WorkerState) {a b : List WorkerState}
    (h : DispatchReach a b) : DispatchReach (w :: a) (w :: b) := by
  induction h with
  | refl => exact .refl _
  | tail hr hs ih => exact .tail ih (step_cons w hs)

/-- Helper: reachability is transitive. -/
theorem reach_trans {a b c : List WorkerState}
    (h1 : DispatchReach a b) (h2 : DispatchReach b c) : DispatchReach a c := by
  induction h2 with
  | refl => exact h1
  | tail hr hs ih => exact .tail ih hs

/-- State with every dispatched worker in `"processing"` at once. -/
def allProcessing (m : Nat) : List WorkerState := List.replicate m ⟨"processing", 1⟩

/-- Helper: the interleaving that marks every submission before any worker
finishes is reachable. -/
theorem reach_allProcessing (m : Nat) :
    DispatchReach (dispatchInit m) (allProcessing m) := by
  induction m with
  | zero => exact .refl _
  | succ n ih =>
    have h0 : DispatchStep (dispatchInit (n + 1))
        (⟨"processing", 1⟩ :: dispatchInit n) :=
      DispatchStep.mark (dispatchInit (n + 1)) 0 "pending" (by
        simp [dispatchInit, List.replicate_succ])
    exact reach_trans (DispatchReach.tail (.refl _) h0)
      (reach_cons ⟨"processing", 1⟩ ih)

/-- Helper: in that state the count is the full `m`. -/
theorem countProcessing_allProcessing (m : Nat) :
    countProcessing (allProcessing m) = m := by
  induction m with
  | zero => rfl
  | succ n ih =>
    unfold countProcessing allProcessing at ih ⊢
    rw [List.replicate_succ]
    simp only [List.filter_cons]
    simp [ih]

/-- C9 amended: `start_background_processing` spawns an unbounded daemon
thread per submission with no pool or semaphore, so no concurrency bound
holds: for every purported pool size, dispatching one more submission than
that size can put all of them in `"processing"` simultaneously. -/
theorem c9_amended_dispatch_unbounded (bound : Nat) :
    ∃ ws, DispatchReach (dispatchInit (bound + 1)) ws ∧
      countProcessing ws = bound + 1 ∧ ¬ (countProcessing ws ≤ bound) := by
  refine ⟨allProcessing (bound + 1), reach_allProcessing _, ?_, ?_⟩
  · exact countProcessing_allProcessing _
  · rw [countProcessing_allProcessing]
    omega

end ResumeParser
